import Mathlib

/-!
Verification model of the TraLog vehicle-tracking sketch
(`src/VehicleTracking.ino`, rocketscream/TraLog).

The control logic of the sketch is shallowly embedded:

* `millis()` timestamps and the `scheduler` global are `unsigned long`
  values on AVR, i.e. naturals reduced modulo `2 ^ 32`; arithmetic on
  them is written with explicit `% ULONG_MOD` where the source wraps.
* External collaborators (the WISMO228 radio, the TinyGPS parser, the
  SD card) are represented by the boolean outcomes the sketch branches
  on, and by traces of the driver calls the sketch issues.
* The fixed-size buffer formatting (`dtostrf`, `Print::print(float, 2)`)
  is modelled by exact length and character computations on the decimal
  renderings, with the float inputs represented as exact rationals
  (all values considered are exactly representable in binary floats).
-/

/-- Modulus of the AVR `unsigned long` type used by `millis()` and by the
`scheduler` global (`unsigned long scheduler;`, line 109). -/
def ULONG_MOD : Nat := 2 ^ 32

/-- The cycle interval: `#define LOG_INTERVAL 60000` (line 94). -/
def LOG_INTERVAL : Nat := 60000

/-- The scheduler readiness test of `loop()` line 171:
`if (millis() > scheduler)`.  Both operands are `unsigned long` values,
i.e. naturals already reduced mod `2 ^ 32`; the comparison is the plain
unsigned order on the reduced values. -/
def tick (now sched : Nat) : Bool := decide (sched < now)

/-- The re-arming assignment of `loop()` line 173 (and of `setup()`
line 166): `scheduler = millis() + LOG_INTERVAL`, with `unsigned long`
wraparound made explicit. -/
def rearm (now : Nat) : Nat := (now + LOG_INTERVAL) % ULONG_MOD

/-- The scheduler value `setup()` leaves behind (lines 121-127 and 166):
if SD-card initialization fails, `setup()` returns early and the global
`scheduler` keeps its C++ zero static initialization; otherwise it is
armed to `millis() + LOG_INTERVAL`. -/
def setupScheduler (sdOk : Bool) (now0 : Nat) : Nat :=
  if sdOk then rearm now0 else 0

/-- The three subsystem routines `loop()` can invoke in a cycle
(lines 176, 182, 185). -/
inductive CyclePhase where
  | gpsPhase
  | gsmPhase
  | logPhase
deriving DecidableEq

/-- The mutable state `loop()` reads and writes: the `scheduler` deadline
(line 109) and the `newGpsData` flag (line 110). -/
structure LoopState where
  scheduler : Nat
  newGpsData : Bool
deriving DecidableEq

/-- One pass of `loop()` (lines 169-191).  `now` is the value of
`millis()` at the comparison (the two `millis()` reads at lines 171 and
173 are identified, as in the spec contract `tick(now)`), and
`gpsValid` says whether `gps.encode` validated some sentence during this
invocation of `processGps` (which sets `newGpsData` and never clears it,
line 210).  Returns the list of invoked routines and the new state. -/
def loopIter (s : LoopState) (now : Nat) (gpsValid : Bool) :
    List CyclePhase × LoopState :=
  if tick now s.scheduler then
    if s.newGpsData || gpsValid then
      ([CyclePhase.gpsPhase, CyclePhase.gsmPhase, CyclePhase.logPhase],
        ⟨rearm now, false⟩)
    else
      ([CyclePhase.gpsPhase], ⟨rearm now, s.newGpsData || gpsValid⟩)
  else ([], s)

/-! ## Uplink Reporter (`processGsm`, lines 227-301)

The radio driver calls are recorded as a trace together with the boolean
result the sketch branches on. -/

/-- WISMO228 driver calls issued by `processGsm`, with their outcome. -/
inductive RAct where
  | powerUp (ok : Bool)
  | getClock (ok : Bool)
  | openGPRS (ok : Bool)
  | putHttp (ok : Bool)
  | closeGPRS (ok : Bool)
  | shutdown
deriving DecidableEq

/-- Trace of driver calls of `processGsm` (lines 227-301), as a function
of the five collaborator outcomes the sketch branches on: `powerUp`
(line 229), `getClock` (line 235), `openGPRS` (line 263), `putHttp`
(line 271), `closeGPRS` (line 286).  `wismo.shutdown()` (line 300) sits
after the whole `if (wismo.powerUp())` block and is always executed. -/
def processGsm (pOk cOk oOk uOk clOk : Bool) : List RAct :=
  (if pOk then
    [RAct.powerUp true, RAct.getClock cOk] ++
      (if oOk then
        [RAct.openGPRS true, RAct.putHttp uOk, RAct.closeGPRS clOk]
      else [RAct.openGPRS false])
  else [RAct.powerUp false]) ++ [RAct.shutdown]

/-- Radio power state after a trace of driver calls, starting from the
given state: a successful `powerUp` turns the radio on, a failed one
leaves it off, `shutdown` turns it off, every other call leaves the
power state unchanged. -/
def radioOn : Bool → List RAct → Bool
  | st, [] => st
  | _, RAct.powerUp ok :: rest => radioOn ok rest
  | _, RAct.shutdown :: rest => radioOn false rest
  | st, RAct.getClock _ :: rest => radioOn st rest
  | st, RAct.openGPRS _ :: rest => radioOn st rest
  | st, RAct.putHttp _ :: rest => radioOn st rest
  | st, RAct.closeGPRS _ :: rest => radioOn st rest

/-! ## Payload formatting sizes (`processGsm`, lines 243-260)

`dtostrf(value, 2, 4, coordinate)` renders `value` in fixed decimal
notation with 4 fraction digits and minimum width 2 (always exceeded
here, since every rendering has at least `0.0000` = 6 characters), then
appends a terminating NUL.  The length of the rendering of a
nonnegative value is the number of digits of its integer part, plus one
for the decimal point, plus the 4 fraction digits. -/

/-- Number of characters `dtostrf(x, 2, 4, buf)` writes (NUL excluded)
for a nonnegative value `x` given as an exact count of ten-thousandths
of a unit (4-decimal fixed point). -/
def dtostrfLen (tenThousandths : Nat) : Nat :=
  (Nat.repr (tenThousandths / 10000)).length + 1 + 4

/-- Size of the destination buffer `char coordinate[8]` (line 245). -/
def coordinateBufLen : Nat := 8

/-! ## Log Writer (`processLog`, lines 303-340)

`Print::print(x, 2)` of the Arduino core rounds by adding `0.005` and
then prints the integer part, a point, and two fraction digits obtained
by repeated multiplication by 10 — i.e. it prints
`⌊100 * x + 1/2⌋` hundredths.  `Print::println` appends `"\r\n"`. -/

/-- The TinyGPS sentinel `TinyGPS::GPS_INVALID_F_ANGLE` (= `1000.0`)
returned by `f_get_position` when no fix is available, compared against
at lines 322 and 325. -/
def GPS_INVALID_F_ANGLE : ℚ := mkRat 1000 1

/-- Two-digit decimal rendering of a fraction-part value `n < 100`,
as printed digit by digit by `Print::printFloat`. -/
def twoDigits (n : Nat) : String :=
  (if n < 10 then "0" else "") ++ Nat.repr n

/-- Rendering of a nonnegative value by `Print::print(x, 2)`:
the printed hundredths are `m = ⌊100 * x + 1/2⌋`, computed here on the
exact numerator and denominator as `(200 * num + den) / (2 * den)`
(integer division of nonnegative operands), printed as integer part,
point, and two fraction digits. -/
def printFloat2Nonneg (x : ℚ) : String :=
  let m : Nat := ((200 * x.num + x.den) / (2 * (x.den : Int))).toNat
  Nat.repr (m / 100) ++ "." ++ twoDigits (m % 100)

/-- Rendering of a value by `Print::print(x, 2)` (Arduino core
`printFloat`): a leading minus sign for negative values, then the
nonnegative rendering. -/
def printFloat2 (x : ℚ) : String :=
  if x.num < 0 then "-" ++ printFloat2Nonneg (-x) else printFloat2Nonneg x

/-- The record `processLog` (lines 303-340) appends: `none` when
`SD.open` fails (line 306, no partial write); otherwise the
concatenation written by lines 319-325: the clock string, a comma, the
latitude (normalized to `0` when it equals the TinyGPS sentinel)
printed with 2 decimals, a comma, and the longitude likewise via
`println`, which terminates the line with `"\r\n"`. -/
def processLog (openOk : Bool) (clk : String) (flat flon : ℚ) :
    Option String :=
  if openOk then
    some (clk ++ "," ++
      printFloat2 (if flat = GPS_INVALID_F_ANGLE then 0 else flat) ++ "," ++
      printFloat2 (if flon = GPS_INVALID_F_ANGLE then 0 else flon) ++ "\r\n")
  else none

/-! ## Fix Acquisition (`processGps`, lines 193-225)

The acquisition loop

```
for (unsigned long start = millis(); millis() - start < 2000;)
  while (ss.available())
    { char c = ss.read(); if (gps.encode(c)) newGpsData = true; }
```

is embedded as a small-step execution over the queue of bytes the GPS
channel makes available.  Each queued byte carries its arrival time and
the result `gps.encode` returns on it (the NMEA parser itself is the
external TinyGPS collaborator).  The timing model: reading one queued
byte advances the clock by one millisecond tick, and busy-waiting on an
empty queue jumps the clock to the next byte arrival or to the
deadline.  Faithfully to the source, the `millis() - start < 2000`
condition is checked only between drains of the receive queue: while a
byte is available, the inner `while` keeps reading without consulting
the deadline. -/

/-- One byte made available by the GPS serial channel: its arrival time
(in ms since entry to `processGps`) and the value `gps.encode` returns
on it (`true` when a checksummed sentence just validated). -/
structure GpsIn where
  arrival : Nat
  valid : Bool
deriving DecidableEq

/-- Execution state of the acquisition loop: the current `millis()`
value `t`, the queue of bytes not yet read, the `newGpsData` flag, and
the count of bytes read so far. -/
structure GpsState where
  t : Nat
  pending : List GpsIn
  newGpsData : Bool
  reads : Nat
deriving DecidableEq

/-- Small-step execution of the acquisition loop of `processGps`
(lines 202-213), with `start` the `millis()` value at entry and enough
`fuel` to reach the exit (see `processGps_fuel`).  A byte whose arrival
is at or past `start + 2000` is never read: the `for` condition fails
at the deadline before the byte becomes available. -/
def gpsLoop (start : Nat) : Nat → GpsState → GpsState
  | 0, s => s
  | fuel + 1, s =>
    match s.pending with
    | [] =>
      if 2000 ≤ s.t - start then s
      else ⟨start + 2000, [], s.newGpsData, s.reads⟩
    | e :: rest =>
      if e.arrival ≤ s.t then
        gpsLoop start fuel ⟨s.t + 1, rest, s.newGpsData || e.valid, s.reads + 1⟩
      else if 2000 ≤ s.t - start then s
      else if e.arrival < start + 2000 then
        gpsLoop start fuel ⟨e.arrival, e :: rest, s.newGpsData, s.reads⟩
      else ⟨start + 2000, e :: rest, s.newGpsData, s.reads⟩

/-- `processGps` (lines 193-225) on the queue of bytes the channel will
make available, starting with `newGpsData` still false and the clock at
the entry `millis()` value (taken as time origin, so `t` of the result
is the elapsed time at exit).  The fuel `input.length + 2001` always
suffices (`processGps_fuel`). -/
def processGps (input : List GpsIn) : GpsState :=
  gpsLoop 0 (input.length + 2001) ⟨0, input, false, 0⟩

/-- Each step of the acquisition loop strictly decreases
`pending.length + (start + 2000 - t)`, so any fuel above that measure
makes `gpsLoop` reach an exit branch: at every exit, the deadline has
been reached or passed. -/
theorem gpsLoop_exit_t (start : Nat) :
    ∀ (fuel : Nat) (s : GpsState),
      s.pending.length + (start + 2000 - s.t) < fuel →
      start + 2000 ≤ (gpsLoop start fuel s).t := by
  intro fuel
  induction fuel with
  | zero => intro s h; omega
  | succ n ih =>
    intro s h
    obtain ⟨t, pending, flag, reads⟩ := s
    cases pending with
    | nil =>
      simp only [gpsLoop]
      split
      · simp only [List.length_nil] at h ⊢; omega
      · simp
    | cons e rest =>
      simp only [gpsLoop, List.length_cons] at h ⊢
      by_cases h1 : e.arrival ≤ t
      · simp only [if_pos h1]
        exact ih _ (by simp; omega)
      · simp only [if_neg h1]
        by_cases h2 : 2000 ≤ t - start
        · simp only [if_pos h2]; omega
        · simp only [if_neg h2]
          by_cases h3 : e.arrival < start + 2000
          · simp only [if_pos h3]
            exact ih _ (by simp; omega)
          · simp only [if_neg h3]
            omega

/-- Upper bound on the exit time of the acquisition loop: the deadline
check is consulted only between drains of the receive queue, so the
exit time can pass `start + 2000`, but only by reads — at most one tick
per pending byte. -/
theorem gpsLoop_t_le (start : Nat) :
    ∀ (fuel : Nat) (s : GpsState),
      (gpsLoop start fuel s).t ≤ max s.t (start + 2000) + s.pending.length := by
  intro fuel
  induction fuel with
  | zero => intro s; simp [gpsLoop]; omega
  | succ n ih =>
    intro s
    obtain ⟨t, pending, flag, reads⟩ := s
    cases pending with
    | nil =>
      simp only [gpsLoop, List.length_nil]
      split
      · simp only; omega
      · simp only; omega
    | cons e rest =>
      simp only [gpsLoop, List.length_cons]
      by_cases h1 : e.arrival ≤ t
      · simp only [if_pos h1]
        have h4 := ih ⟨t + 1, rest, flag || e.valid, reads + 1⟩
        simp only at h4
        omega
      · simp only [if_neg h1]
        by_cases h2 : 2000 ≤ t - start
        · simp only [if_pos h2]
          omega
        · simp only [if_neg h2]
          by_cases h3 : e.arrival < start + 2000
          · simp only [if_pos h3]
            have h4 := ih ⟨e.arrival, e :: rest, flag, reads⟩
            simp only [List.length_cons] at h4
            omega
          · simp only [if_neg h3]
            omega

/-! ## Claims -/

/-- Claim C1, counterexample: the readiness check `millis() > scheduler`
does not fire when the current time equals the stored deadline, so the
spec statement "`tick(now)` is true iff `now >= next_due`" is false at
`now = next_due = 1000`. -/
theorem tick_ge_counterexample :
    ¬ (tick 1000 1000 = true ↔ (1000 : Nat) ≥ 1000) := by decide

/-- Claim C1 (amended): the readiness check fires exactly when the
current time is strictly greater than the stored deadline. -/
theorem tick_iff_strict_gt :
    ∀ now sched : Nat, tick now sched = true ↔ sched < now := by
  intro now sched
  simp [tick]

/-- Claim C7: evaluation at a wraparound boundary.  Arming the scheduler
when `millis()` reads `2^32 - 1000` stores the wrapped deadline
`(2^32 - 1000 + 60000) mod 2^32 = 59000`; checking one millisecond
later, the unsigned comparison `millis() > scheduler` fires although
with an unbounded counter only 1 ms of the 60000 ms interval has
elapsed: the readiness comparison is not wraparound-safe. -/
theorem tick_wraparound_eval :
    tick ((ULONG_MOD - 999) % ULONG_MOD) (rearm ((ULONG_MOD - 1000) % ULONG_MOD)) = true ∧
    ¬ (ULONG_MOD - 1000 + LOG_INTERVAL < ULONG_MOD - 999) := by decide

/-- Claim C8, counterexample: at `now = 5` with stored deadline `0` the
trigger fires, and the recomputed deadline is `millis() + LOG_INTERVAL
= 60005`, not `old deadline + LOG_INTERVAL = 60000`. -/
theorem rearm_not_old_plus_interval :
    tick 5 0 = true ∧ rearm 5 ≠ 0 + LOG_INTERVAL := by decide

/-- Claim C8 (amended): on every firing the new deadline is
`now + LOG_INTERVAL` reduced mod 2^32; since firing requires the
current time to be strictly past the old deadline, the new deadline
computed from `now` strictly exceeds `old deadline + LOG_INTERVAL` —
the advance over the old deadline is one interval plus the overshoot
`now - old`, not exactly one interval. -/
theorem rearm_now_plus_interval (now sched : Nat)
    (h : tick now sched = true) :
    rearm now = (now + LOG_INTERVAL) % ULONG_MOD ∧
    sched + LOG_INTERVAL < now + LOG_INTERVAL := by
  refine ⟨rfl, ?_⟩
  have hlt : sched < now := by simpa [tick] using h
  omega

/-- Witness for `rearm_now_plus_interval` at `now = 5`, `sched = 0`. -/
theorem rearm_now_plus_interval_witness :
    tick 5 0 = true ∧
    (rearm 5 = (5 + LOG_INTERVAL) % ULONG_MOD ∧
      0 + LOG_INTERVAL < 5 + LOG_INTERVAL) :=
  ⟨by decide, rearm_now_plus_interval 5 0 (by decide)⟩

/-- Claim C3: if fix acquisition leaves `newGpsData` false (the flag was
false entering the cycle and no sentence validated), `loop()` invokes
neither `processGsm` nor `processLog` during that cycle. -/
theorem no_fix_skips_gsm_log (s : LoopState) (now : Nat) (gpsValid : Bool)
    (h : (s.newGpsData || gpsValid) = false) :
    CyclePhase.gsmPhase ∉ (loopIter s now gpsValid).1 ∧
    CyclePhase.logPhase ∉ (loopIter s now gpsValid).1 := by
  unfold loopIter
  rw [h]
  split <;> simp

/-- Witness for `no_fix_skips_gsm_log` at state `⟨0, false⟩`, `now = 1`,
no validated sentence. -/
theorem no_fix_skips_gsm_log_witness :
    (((⟨0, false⟩ : LoopState).newGpsData || false) = false) ∧
    (CyclePhase.gsmPhase ∉ (loopIter ⟨0, false⟩ 1 false).1 ∧
      CyclePhase.logPhase ∉ (loopIter ⟨0, false⟩ 1 false).1) :=
  ⟨rfl, no_fix_skips_gsm_log ⟨0, false⟩ 1 false rfl⟩

/-- Claim C10: when SD-card initialization fails, `setup()` returns
before arming and the deadline keeps its zero static initialization;
the first `loop()` pass with `millis() > 0` then fires a full cycle
immediately — `processGps` runs, and on a fix `processGsm` and
`processLog` also run — and the scheduler re-arms to
`now + LOG_INTERVAL`, so cycles keep running every interval despite the
failed storage initialization. -/
theorem sd_fail_fires_immediately (now0 now : Nat) (gpsValid : Bool)
    (h : 0 < now) :
    setupScheduler false now0 = 0 ∧
    CyclePhase.gpsPhase ∈ (loopIter ⟨setupScheduler false now0, false⟩ now gpsValid).1 ∧
    (gpsValid = true →
      CyclePhase.gsmPhase ∈ (loopIter ⟨setupScheduler false now0, false⟩ now gpsValid).1 ∧
      CyclePhase.logPhase ∈ (loopIter ⟨setupScheduler false now0, false⟩ now gpsValid).1) ∧
    (loopIter ⟨setupScheduler false now0, false⟩ now gpsValid).2.scheduler =
      (now + LOG_INTERVAL) % ULONG_MOD := by
  have ht : tick now 0 = true := by
    simp only [tick, decide_eq_true_eq]
    omega
  cases gpsValid <;>
    simp [loopIter, setupScheduler, rearm, ht]

/-- Witness for `sd_fail_fires_immediately` at `now0 = 0`, `now = 1`,
with a validated fix. -/
theorem sd_fail_fires_immediately_witness :
    (0 : Nat) < 1 ∧
    (setupScheduler false 0 = 0 ∧
      CyclePhase.gpsPhase ∈ (loopIter ⟨setupScheduler false 0, false⟩ 1 true).1 ∧
      (true = true →
        CyclePhase.gsmPhase ∈ (loopIter ⟨setupScheduler false 0, false⟩ 1 true).1 ∧
        CyclePhase.logPhase ∈ (loopIter ⟨setupScheduler false 0, false⟩ 1 true).1) ∧
      (loopIter ⟨setupScheduler false 0, false⟩ 1 true).2.scheduler =
        (1 + LOG_INTERVAL) % ULONG_MOD) :=
  ⟨by decide, sd_fail_fires_immediately 0 1 true (by decide)⟩

/-- Claim C4: for every combination of the five collaborator outcomes
(power-up, clock read, network attach, upload, detach), the radio is
powered off after `processGsm` returns — the unconditional
`wismo.shutdown()` at line 300 is the last driver call of the trace. -/
theorem processGsm_powers_off :
    ∀ pOk cOk oOk uOk clOk : Bool,
      radioOn false (processGsm pOk cOk oOk uOk clOk) = false ∧
      (processGsm pOk cOk oOk uOk clOk).getLast? = some RAct.shutdown := by
  decide

/-- Claim C5: evaluation at the failing input.  For longitude `103.75`
(1037500 ten-thousandths) `dtostrf(flon, 2, 4, coordinate)` renders
`"103.7500"` — 8 characters plus the terminating NUL, 9 bytes — into
`char coordinate[8]`: the rendering does not fit the 8-byte coordinate
buffer. -/
theorem coordinate_overflow_eval :
    dtostrfLen 1037500 = 8 ∧ coordinateBufLen < dtostrfLen 1037500 + 1 := by
  decide

/-- Claim C6, counterexample: with fix `(1.5, 103.75)` and clock
`"12/10/16,17:30:00+32"` the record is terminated by `println` with
`"\r\n"`, so it is not the exact byte string
`"12/10/16,17:30:00+32,1.50,103.75\n"` the claim states. -/
theorem processLog_line_counterexample :
    processLog true "12/10/16,17:30:00+32" (mkRat 3 2) (mkRat 415 4) ≠
      some "12/10/16,17:30:00+32,1.50,103.75\n" := by decide

/-- Claim C6 (amended): the appended record is
`"12/10/16,17:30:00+32,1.50,103.75\r\n"` — comma-separated fields,
coordinates rendered with 2 decimal digits, CRLF line terminator — and
a latitude equal to the TinyGPS no-fix sentinel is written as `0.00`
instead of the sentinel, without aborting the write. -/
theorem processLog_line_eval :
    processLog true "12/10/16,17:30:00+32" (mkRat 3 2) (mkRat 415 4) =
      some "12/10/16,17:30:00+32,1.50,103.75\r\n" ∧
    processLog true "12/10/16,17:30:00+32" GPS_INVALID_F_ANGLE (mkRat 415 4) =
      some "12/10/16,17:30:00+32,0.00,103.75\r\n" := by decide

/-- Claim C2, counterexample: feed a byte that validates a sentence at
time 0 and a further byte arriving at 1000 ms.  The acquisition loop
does not stop at the first validated sentence: it also reads the later
byte and leaves only once the full 2000 ms window has elapsed. -/
theorem processGps_no_early_exit :
    (processGps [⟨0, true⟩, ⟨1000, false⟩]).newGpsData = true ∧
    (processGps [⟨0, true⟩, ⟨1000, false⟩]).reads = 2 ∧
    (processGps [⟨0, true⟩, ⟨1000, false⟩]).t = 2000 := by decide

/-- Claim C2 (amended): a validated sentence only sets the `newGpsData`
flag (line 210); the acquisition loop never returns early and always
runs out the full timeout window — on every input queue the elapsed
time at exit is at least 2000 ms. -/
theorem processGps_runs_full_window :
    ∀ input : List GpsIn, 2000 ≤ (processGps input).t := by
  intro input
  have h := gpsLoop_exit_t 0 (input.length + 2001) ⟨0, input, false, 0⟩
    (by simp)
  simpa [processGps] using h

/-- Claim C9, counterexample: three bytes that become available 1999 ms
into the window keep the inner `while (ss.available())` loop reading
past the deadline: the routine leaves 2002 ms after entry, exceeding
its 2000 ms budget. -/
theorem processGps_overruns_timeout :
    2000 < (processGps [⟨1999, false⟩, ⟨1999, false⟩, ⟨1999, false⟩]).t := by
  decide

/-- Claim C9 (amended): the timeout is checked only between drains of
the receive queue, so the elapsed time at exit is not capped by the
timeout alone but by the timeout plus the drain time of the queued
bytes (one tick per byte): at most `2000 + input.length`; with no byte
ever available it is exactly 2000 ms. -/
theorem processGps_elapsed_bound :
    (∀ input : List GpsIn, (processGps input).t ≤ 2000 + input.length) ∧
    (processGps []).t = 2000 := by
  constructor
  · intro input
    have h := gpsLoop_t_le 0 (input.length + 2001) ⟨0, input, false, 0⟩
    simp only [processGps]
    simp only [Nat.zero_add, Nat.zero_max] at h
    exact h
  · decide
